import Mathlib

/-!
# Verification of the rule-based credit scoring engine

Shallow embedding of `calculate_credit_score` from `src/main.py`.

Modelling conventions:
* Python `float` values are embedded as `ℚ` (all thresholds and the scenario
  inputs are far from binary rounding boundaries, so the comparisons agree).
* Optional fields (`None` in Python) are `Option` values.
* The running score is an `Int`, as in Python.
* Pillar 4 parses `employment_start_date` and subtracts it from
  `datetime.now()`; since the current date is an external input, the embedding
  takes the resulting tenure in days directly: `employment_tenure_days = none`
  models an absent, empty, or unparseable date (the `except` clause of the
  source silently skips those), `some d` models a successful parse whose
  difference from the current date is `d` days.
* The `ValueError` raised for missing critical data is an `Except.error`.
-/

/-- Embedding of the `Indicators` pydantic model (`src/main.py` lines 8-20).
Only the fields read by `calculate_credit_score` are carried; the remaining
fields are accepted but never read, so they cannot affect the result.
The source field `loan_to_net_ratio` is carried as `loan_to_net`. -/
structure Indicators where
  loan_to_net : Option ℚ
  disposable_income : Option ℚ
  income_stability_flag : Option Bool
deriving Repr, DecidableEq

/-- Embedding of the `Features` pydantic model (`src/main.py` lines 22-29).
`employment_tenure_days` stands for the outcome of parsing
`employment_start_date` and subtracting from the current date, see the file
header. -/
structure Features where
  net_salary : Option ℚ
  gross_salary : Option ℚ
  basic_salary : Option ℚ
  employment_tenure_days : Option Int
  pension : Option ℚ
  garnishments : Option ℚ
  indicators : Indicators
deriving Repr, DecidableEq

/-- Pillar 1, net-to-gross rule (`src/main.py` lines 66-73):
if `net_salary` and `gross_salary` are present and `gross_salary > 0`,
award 20 / 15 / 10 / 5 points by the ratio thresholds 0.85 / 0.75 / 0.65. -/
def netToGrossPoints (net_salary gross_salary : Option ℚ) : Int :=
  match net_salary, gross_salary with
  | some n, some g =>
    if g > 0 then
      let r := n / g
      if r ≥ 85/100 then 20
      else if r ≥ 75/100 then 15
      else if r ≥ 65/100 then 10
      else 5
    else 0
  | _, _ => 0

/-- Pillar 1, salary composition rule (`src/main.py` lines 76-79):
if `basic_salary` and `gross_salary` are present and `gross_salary > 0`,
award 10 / 5 / 0 by the ratio thresholds 0.8 / 0.6. -/
def compositionPoints (basic_salary gross_salary : Option ℚ) : Int :=
  match basic_salary, gross_salary with
  | some b, some g =>
    if g > 0 then
      let r := b / g
      if r ≥ 8/10 then 10
      else if r ≥ 6/10 then 5
      else 0
    else 0
  | _, _ => 0

/-- Pillar 1, income stability indicator (`src/main.py` lines 82-83):
`if indicators.get("income_stability_flag"):` is truthy exactly on `True`. -/
def stabilityPoints (flag : Option Bool) : Int :=
  if flag = some true then 5 else 0

/-- Pillar 2, existing debt burden (`src/main.py` lines 90-94):
award 25 / 15 / 5 / 0 by the thresholds 0.1 / 0.25 / 0.4 on
`loan_to_net_ratio` when it is present. -/
def debtBurdenPoints (ltn : Option ℚ) : Int :=
  match ltn with
  | some r =>
    if r ≤ 1/10 then 25
    else if r ≤ 25/100 then 15
    else if r ≤ 4/10 then 5
    else 0
  | none => 0

/-- Pillar 2, garnishments rule (`src/main.py` lines 97-98):
`garnishments is None or garnishments == 0` awards 10. -/
def garnishmentPoints (g : Option ℚ) : Int :=
  if g = none ∨ g = some 0 then 10 else 0

/-- Pillar 3, disposable income rule (`src/main.py` lines 105-110):
if `disposable_income` and `net_salary` are present and `net_salary > 0`,
award 15 / 10 / 5 / 0 by the ratio thresholds 0.4 (strict) / 0.25 / 0.15. -/
def disposablePoints (di net_salary : Option ℚ) : Int :=
  match di, net_salary with
  | some d, some n =>
    if n > 0 then
      let r := d / n
      if r > 4/10 then 15
      else if r ≥ 25/100 then 10
      else if r ≥ 15/100 then 5
      else 0
    else 0
  | _, _ => 0

/-- Pillar 3, pension rule (`src/main.py` lines 113-115):
if `pension` is present and positive and `net_salary` is present and
positive, award 5 when `pension / net_salary ≥ 0.05`. -/
def pensionPoints (p net_salary : Option ℚ) : Int :=
  match p, net_salary with
  | some pv, some n =>
    if pv > 0 ∧ n > 0 then
      if pv / n ≥ 5/100 then 5 else 0
    else 0
  | _, _ => 0

/-- Pillar 4, employment tenure (`src/main.py` lines 118-126):
more than `3 * 365 = 1095` days awards 10, more than `1 * 365 = 365` days
awards 5; an absent or unparseable date awards nothing. -/
def tenurePoints (t : Option Int) : Int :=
  match t with
  | some d =>
    if d > 3 * 365 then 10
    else if d > 1 * 365 then 5
    else 0
  | none => 0

/-- The additive score accumulated by the four pillars
(`src/main.py` lines 56-126) before the loan affordability adjustment. -/
def additiveScore (f : Features) : Int :=
  netToGrossPoints f.net_salary f.gross_salary
    + compositionPoints f.basic_salary f.gross_salary
    + stabilityPoints f.indicators.income_stability_flag
    + debtBurdenPoints f.indicators.loan_to_net
    + garnishmentPoints f.garnishments
    + disposablePoints f.indicators.disposable_income f.net_salary
    + pensionPoints f.pension f.net_salary
    + tenurePoints f.employment_tenure_days

/-- Income-multiple penalty tiers (`src/main.py` lines 134-141):
exactly one tier applies, each lowering the score but never below 0. -/
def affordStep1 (score : Int) (r : ℚ) : Int :=
  if r > 8 then max (score - 30) 0
  else if r > 5 then max (score - 20) 0
  else if r > 3 then max (score - 10) 0
  else if r > 2 then max (score - 5) 0
  else score

/-- Payment-to-income penalty tiers for large loans
(`src/main.py` lines 149-152). -/
def paymentStep (score : Int) (p2i : ℚ) : Int :=
  if p2i > 1/2 then max (score - 20) 0
  else if p2i > 35/100 then max (score - 10) 0
  else score

/-- Disposable income adequacy penalty for large loans
(`src/main.py` lines 155-157). -/
def disposableStep (score : Int) (di : Option ℚ) (monthly : ℚ) : Int :=
  match di with
  | some d => if d < monthly then max (score - 15) 0 else score
  | none => score

/-- Loan affordability assessment (`src/main.py` lines 129-157), applied only
when `net_salary` is present and positive. -/
def affordabilityAdjust (f : Features) (requested_loan_amount : ℚ)
    (score : Int) : Int :=
  match f.net_salary with
  | some n =>
    if n > 0 then
      let annual_income := n * 12
      let s1 := affordStep1 score (requested_loan_amount / annual_income)
      if requested_loan_amount ≥ 100000 then
        let monthly_payment_estimate := requested_loan_amount * (1/100)
        let s2 := paymentStep s1 (monthly_payment_estimate / n)
        disposableStep s2 f.indicators.disposable_income
          monthly_payment_estimate
      else s1
    else score
  | none => score

/-- Red flag cap for active garnishments (`src/main.py` lines 161-162). -/
def garnishCap (g : Option ℚ) (score : Int) : Int :=
  match g with
  | some gv => if gv > 0 then min score 30 else score
  | none => score

/-- Red flag cap for a high existing debt burden
(`src/main.py` lines 165-166). -/
def ltnCap (ltn : Option ℚ) (score : Int) : Int :=
  match ltn with
  | some r => if r > 1/2 then min score 40 else score
  | none => score

/-- Embedding of `calculate_credit_score` (`src/main.py` lines 51-172):
the four additive pillars, the affordability adjustment, the two red flag
caps, the critical-data check (which the source performs last, just before
returning), and the final `min score 100`. -/
def calculate_credit_score (f : Features)
    (requested_loan_amount : ℚ) : Except String Int :=
  let score := additiveScore f
  let score := affordabilityAdjust f requested_loan_amount score
  let score := garnishCap f.garnishments score
  let score := ltnCap f.indicators.loan_to_net score
  if f.net_salary = none ∨ f.gross_salary = none then
    Except.error "Critical salary information is missing. Cannot calculate score."
  else
    Except.ok (min score 100)

/-- Variant of `calculate_credit_score` with the Pillar-1 net-to-gross rule
removed (its contribution replaced by 0), used to state the claim that the
rule always adds at least 5 points. -/
def additiveScoreNoNetGross (f : Features) : Int :=
  compositionPoints f.basic_salary f.gross_salary
    + stabilityPoints f.indicators.income_stability_flag
    + debtBurdenPoints f.indicators.loan_to_net
    + garnishmentPoints f.garnishments
    + disposablePoints f.indicators.disposable_income f.net_salary
    + pensionPoints f.pension f.net_salary
    + tenurePoints f.employment_tenure_days

/-- The full pipeline of `calculate_credit_score` with the Pillar-1
net-to-gross rule removed. -/
def calculate_credit_score_noNetGross (f : Features)
    (requested_loan_amount : ℚ) : Except String Int :=
  let score := additiveScoreNoNetGross f
  let score := affordabilityAdjust f requested_loan_amount score
  let score := garnishCap f.garnishments score
  let score := ltnCap f.indicators.loan_to_net score
  if f.net_salary = none ∨ f.gross_salary = none then
    Except.error "Critical salary information is missing. Cannot calculate score."
  else
    Except.ok (min score 100)

/-- Indicators with every field absent. -/
def emptyIndicators : Indicators :=
  { loan_to_net := none, disposable_income := none,
    income_stability_flag := none }

/-- Scenario B input: `net_salary = 2000`, `gross_salary = 2500`, everything
else absent. -/
def featuresB : Features :=
  { net_salary := some 2000, gross_salary := some 2500, basic_salary := none,
    employment_tenure_days := none, pension := none, garnishments := none,
    indicators := emptyIndicators }

/-- Scenario A input (`spec.md` §8.7): every feature present, tenure passed
as a parameter (the source computes it from `employment_start_date` and the
current date). -/
def featuresA (t : Int) : Features :=
  { net_salary := some 5000, gross_salary := some 6000,
    basic_salary := some 5000, employment_tenure_days := some t,
    pension := some 300, garnishments := some 0,
    indicators := { loan_to_net := some (5/100),
                    disposable_income := some 2200,
                    income_stability_flag := none } }

/-- Input refuting the claim that the net-to-gross rule always lifts the
final score by at least 5: both salaries 1000, everything else absent. -/
def featuresC : Features :=
  { net_salary := some 1000, gross_salary := some 1000, basic_salary := none,
    employment_tenure_days := none, pension := none, garnishments := none,
    indicators := emptyIndicators }

/-- Zero-salary input: both salaries present but equal to 0, everything else
absent. -/
def featuresZ : Features :=
  { net_salary := some 0, gross_salary := some 0, basic_salary := none,
    employment_tenure_days := none, pension := none, garnishments := none,
    indicators := emptyIndicators }

lemma netToGrossPoints_nonneg (a b : Option ℚ) : 0 ≤ netToGrossPoints a b := by
  unfold netToGrossPoints
  rcases a with _ | n <;> rcases b with _ | g <;> simp <;> split_ifs <;> norm_num

lemma compositionPoints_nonneg (a b : Option ℚ) : 0 ≤ compositionPoints a b := by
  unfold compositionPoints
  rcases a with _ | n <;> rcases b with _ | g <;> simp <;> split_ifs <;> norm_num

lemma stabilityPoints_nonneg (a : Option Bool) : 0 ≤ stabilityPoints a := by
  unfold stabilityPoints
  split_ifs <;> norm_num

lemma debtBurdenPoints_nonneg (a : Option ℚ) : 0 ≤ debtBurdenPoints a := by
  unfold debtBurdenPoints
  rcases a with _ | r <;> simp <;> split_ifs <;> norm_num

lemma garnishmentPoints_nonneg (a : Option ℚ) : 0 ≤ garnishmentPoints a := by
  unfold garnishmentPoints
  split_ifs <;> norm_num

lemma disposablePoints_nonneg (a b : Option ℚ) : 0 ≤ disposablePoints a b := by
  unfold disposablePoints
  rcases a with _ | d <;> rcases b with _ | n <;> simp <;> split_ifs <;> norm_num

lemma pensionPoints_nonneg (a b : Option ℚ) : 0 ≤ pensionPoints a b := by
  unfold pensionPoints
  rcases a with _ | p <;> rcases b with _ | n <;> simp <;> split_ifs <;> norm_num

lemma tenurePoints_nonneg (a : Option Int) : 0 ≤ tenurePoints a := by
  unfold tenurePoints
  rcases a with _ | d <;> simp <;> split_ifs <;> norm_num

lemma additiveScore_nonneg (f : Features) : 0 ≤ additiveScore f := by
  unfold additiveScore
  have h1 := netToGrossPoints_nonneg f.net_salary f.gross_salary
  have h2 := compositionPoints_nonneg f.basic_salary f.gross_salary
  have h3 := stabilityPoints_nonneg f.indicators.income_stability_flag
  have h4 := debtBurdenPoints_nonneg f.indicators.loan_to_net
  have h5 := garnishmentPoints_nonneg f.garnishments
  have h6 := disposablePoints_nonneg f.indicators.disposable_income f.net_salary
  have h7 := pensionPoints_nonneg f.pension f.net_salary
  have h8 := tenurePoints_nonneg f.employment_tenure_days
  omega

lemma affordStep1_nonneg (s : Int) (r : ℚ) (h : 0 ≤ s) :
    0 ≤ affordStep1 s r := by
  unfold affordStep1
  split_ifs <;> omega

lemma paymentStep_nonneg (s : Int) (r : ℚ) (h : 0 ≤ s) :
    0 ≤ paymentStep s r := by
  unfold paymentStep
  split_ifs <;> omega

lemma disposableStep_nonneg (s : Int) (di : Option ℚ) (m : ℚ) (h : 0 ≤ s) :
    0 ≤ disposableStep s di m := by
  unfold disposableStep
  rcases di with _ | d <;> simp <;> (try split_ifs) <;> omega

lemma affordabilityAdjust_nonneg (f : Features) (loan : ℚ) (s : Int)
    (h : 0 ≤ s) : 0 ≤ affordabilityAdjust f loan s := by
  unfold affordabilityAdjust
  rcases f.net_salary with _ | n
  · exact h
  · simp only
    split_ifs
    · exact disposableStep_nonneg _ _ _
        (paymentStep_nonneg _ _ (affordStep1_nonneg _ _ h))
    · exact affordStep1_nonneg _ _ h
    · exact h

lemma garnishCap_nonneg (g : Option ℚ) (s : Int) (h : 0 ≤ s) :
    0 ≤ garnishCap g s := by
  unfold garnishCap
  rcases g with _ | gv <;> simp <;> (try split_ifs) <;> omega

lemma garnishCap_le (g : Option ℚ) (s : Int) : garnishCap g s ≤ s := by
  unfold garnishCap
  rcases g with _ | gv <;> simp <;> (try split_ifs) <;> omega

lemma ltnCap_nonneg (l : Option ℚ) (s : Int) (h : 0 ≤ s) :
    0 ≤ ltnCap l s := by
  unfold ltnCap
  rcases l with _ | r <;> simp <;> (try split_ifs) <;> omega

lemma ltnCap_le (l : Option ℚ) (s : Int) : ltnCap l s ≤ s := by
  unfold ltnCap
  rcases l with _ | r <;> simp <;> (try split_ifs) <;> omega

lemma garnishCap_pos (g : ℚ) (s : Int) (h : 0 < g) :
    garnishCap (some g) s = min s 30 := by
  simp [garnishCap, h]

lemma ltnCap_high (r : ℚ) (s : Int) (h : 1/2 < r) :
    ltnCap (some r) s = min s 40 := by
  show (if r > 1/2 then min s 40 else s) = min s 40
  rw [if_pos h]

/-- **C1.** `calculate_credit_score` fails if and only if `net_salary` is
absent or `gross_salary` is absent; whenever both are present (any numeric
values), it raises no error and returns a score. -/
theorem calculate_credit_score_error_iff_missing_salary (f : Features)
    (loan : ℚ) :
    ((f.net_salary = none ∨ f.gross_salary = none) →
      ∃ e, calculate_credit_score f loan = Except.error e) ∧
    ((f.net_salary ≠ none ∧ f.gross_salary ≠ none) →
      ∃ s, calculate_credit_score f loan = Except.ok s) := by
  unfold calculate_credit_score
  constructor
  · intro h
    rw [if_pos h]
    exact ⟨_, rfl⟩
  · intro h
    rw [if_neg (by tauto)]
    exact ⟨_, rfl⟩

/-- Witness for C1 at concrete inputs: Scenario B's features have both
salaries present and yield a score; removing `net_salary` yields an error. -/
theorem calculate_credit_score_error_iff_missing_salary_witness :
    (∃ s, calculate_credit_score featuresB 100000 = Except.ok s) ∧
    (∃ e, calculate_credit_score
      { featuresB with net_salary := none } 100000 = Except.error e) := by
  constructor
  · exact (calculate_credit_score_error_iff_missing_salary featuresB 100000).2
      (by simp [featuresB])
  · exact (calculate_credit_score_error_iff_missing_salary
      { featuresB with net_salary := none } 100000).1 (by simp [featuresB])

/-- **C2.** Whenever `calculate_credit_score` returns, the returned score is
an integer `s` with `0 ≤ s ≤ 100`. -/
theorem calculate_credit_score_bounded (f : Features) (loan : ℚ) (s : Int)
    (h : calculate_credit_score f loan = Except.ok s) : 0 ≤ s ∧ s ≤ 100 := by
  unfold calculate_credit_score at h
  split_ifs at h
  have hs : s = min (ltnCap f.indicators.loan_to_net
      (garnishCap f.garnishments
        (affordabilityAdjust f loan (additiveScore f)))) 100 := by
    exact (Except.ok.injEq _ _).mp h.symm
  subst hs
  refine ⟨le_min ?_ (by norm_num), min_le_right _ _⟩
  exact ltnCap_nonneg _ _ (garnishCap_nonneg _ _
    (affordabilityAdjust_nonneg _ _ _ (additiveScore_nonneg f)))

/-- Witness for C2: Scenario B returns 5, and `0 ≤ 5 ≤ 100`. -/
theorem calculate_credit_score_bounded_witness :
    0 ≤ (5 : Int) ∧ (5 : Int) ≤ 100 := by
  refine calculate_credit_score_bounded featuresB 100000 5 ?_
  simp [calculate_credit_score, additiveScore, netToGrossPoints,
    compositionPoints, stabilityPoints, debtBurdenPoints, garnishmentPoints,
    disposablePoints, pensionPoints, tenurePoints, affordabilityAdjust,
    affordStep1, paymentStep, disposableStep, garnishCap, ltnCap,
    featuresB, emptyIndicators, max_def, min_def]
  norm_num

/-- **C3.** If `garnishments` is present and positive and the engine returns,
the returned score is at most 30, regardless of every other field value. -/
theorem garnishment_red_flag_cap (f : Features) (loan : ℚ) (g : ℚ) (s : Int)
    (hg : f.garnishments = some g) (hpos : 0 < g)
    (h : calculate_credit_score f loan = Except.ok s) : s ≤ 30 := by
  unfold calculate_credit_score at h
  split_ifs at h
  have hs : s = min (ltnCap f.indicators.loan_to_net
      (garnishCap f.garnishments
        (affordabilityAdjust f loan (additiveScore f)))) 100 :=
    (Except.ok.injEq _ _).mp h.symm
  have hcap : garnishCap f.garnishments
      (affordabilityAdjust f loan (additiveScore f)) ≤ 30 := by
    rw [hg, garnishCap_pos _ _ hpos]
    exact min_le_right _ _
  have := ltnCap_le f.indicators.loan_to_net
    (garnishCap f.garnishments (affordabilityAdjust f loan (additiveScore f)))
  omega

/-- Witness for C3: Scenario B's features with `garnishments = 7` score 0
(the +10 garnishment award is lost and penalties floor at 0), and the
theorem bounds that by 30. -/
theorem garnishment_red_flag_cap_witness : (0 : Int) ≤ 30 := by
  refine garnishment_red_flag_cap
    { featuresB with garnishments := some 7 } 100000 7 0 rfl (by norm_num) ?_
  simp [calculate_credit_score, additiveScore, netToGrossPoints,
    compositionPoints, stabilityPoints, debtBurdenPoints, garnishmentPoints,
    disposablePoints, pensionPoints, tenurePoints, affordabilityAdjust,
    affordStep1, paymentStep, disposableStep, garnishCap, ltnCap,
    featuresB, emptyIndicators, max_def, min_def]
  norm_num

/-- **C4.** If `loan_to_net_ratio` is present and greater than 0.5 and the
engine returns, the returned score is at most 40. -/
theorem debt_burden_red_flag_cap (f : Features) (loan : ℚ) (r : ℚ) (s : Int)
    (hr : f.indicators.loan_to_net = some r) (hhigh : 1/2 < r)
    (h : calculate_credit_score f loan = Except.ok s) : s ≤ 40 := by
  unfold calculate_credit_score at h
  split_ifs at h
  have hs : s = min (ltnCap f.indicators.loan_to_net
      (garnishCap f.garnishments
        (affordabilityAdjust f loan (additiveScore f)))) 100 :=
    (Except.ok.injEq _ _).mp h.symm
  have hcap : ltnCap f.indicators.loan_to_net
      (garnishCap f.garnishments
        (affordabilityAdjust f loan (additiveScore f))) ≤ 40 := by
    rw [hr, ltnCap_high _ _ hhigh]
    exact min_le_right _ _
  omega

/-- Witness for C4: Scenario B's features with `loan_to_net_ratio = 0.6`
score 5, and the theorem bounds that by 40. -/
theorem debt_burden_red_flag_cap_witness : (5 : Int) ≤ 40 := by
  refine debt_burden_red_flag_cap
    { featuresB with indicators := { emptyIndicators with
        loan_to_net := some (6/10) } } 100000 (6/10) 5 rfl (by norm_num) ?_
  simp [calculate_credit_score, additiveScore, netToGrossPoints,
    compositionPoints, stabilityPoints, debtBurdenPoints, garnishmentPoints,
    disposablePoints, pensionPoints, tenurePoints, affordabilityAdjust,
    affordStep1, paymentStep, disposableStep, garnishCap, ltnCap,
    featuresB, emptyIndicators, max_def, min_def]
  norm_num

/-- **C5.** Scenario B: `net_salary = 2000`, `gross_salary = 2500`, every
other field absent, requested loan amount 100000. The additive pillars give
15 + 10 = 25, the income-multiple tier (ratio 100000/24000 > 3) takes 10,
the payment-to-income tier (ratio exactly 0.5, so the > 0.35 tier) takes
another 10, and the engine returns exactly 5. -/
theorem scenarioB_score_eq_five :
    calculate_credit_score featuresB 100000 = Except.ok 5 := by
  simp [calculate_credit_score, additiveScore, netToGrossPoints,
    compositionPoints, stabilityPoints, debtBurdenPoints, garnishmentPoints,
    disposablePoints, pensionPoints, tenurePoints, affordabilityAdjust,
    affordStep1, paymentStep, disposableStep, garnishCap, ltnCap,
    featuresB, emptyIndicators, max_def, min_def]
  norm_num

/-- **C6.** Scenario A: `net_salary=5000, gross_salary=6000,
basic_salary=5000, garnishments=0, loan_to_net_ratio=0.05,
disposable_income=2200, pension=300`, a tenure of more than 1095 days, and
requested loan amount 100000 give exactly 90; the affordability adjustment
leaves the additive score unchanged and neither red flag cap fires. -/
theorem scenarioA_score_eq_ninety (t : Int) (ht : 1095 < t) :
    calculate_credit_score (featuresA t) 100000 = Except.ok 90 ∧
    affordabilityAdjust (featuresA t) 100000 (additiveScore (featuresA t)) =
      additiveScore (featuresA t) ∧
    garnishCap (featuresA t).garnishments 90 = 90 ∧
    ltnCap (featuresA t).indicators.loan_to_net 90 = 90 := by
  have h3 : (3 * 365 : Int) < t := by omega
  refine ⟨?_, ?_, ?_, ?_⟩
  · simp [calculate_credit_score, additiveScore, netToGrossPoints,
      compositionPoints, stabilityPoints, debtBurdenPoints, garnishmentPoints,
      disposablePoints, pensionPoints, tenurePoints, affordabilityAdjust,
      affordStep1, paymentStep, disposableStep, garnishCap, ltnCap,
      featuresA, max_def, min_def, h3]
    norm_num [ht]
  · simp [additiveScore, netToGrossPoints,
      compositionPoints, stabilityPoints, debtBurdenPoints, garnishmentPoints,
      disposablePoints, pensionPoints, tenurePoints, affordabilityAdjust,
      affordStep1, paymentStep, disposableStep,
      featuresA, max_def, min_def, h3]
    norm_num [ht]
  · simp [garnishCap, featuresA]
  · simp [ltnCap, featuresA]
    norm_num

/-- Witness for C6 at tenure 1460 days (4 years prior). -/
theorem scenarioA_score_eq_ninety_witness :
    calculate_credit_score (featuresA 1460) 100000 = Except.ok 90 :=
  (scenarioA_score_eq_ninety 1460 (by norm_num)).1

/-- **C7.** Every loan-affordability penalty step (the income-multiple
tiers, the payment-to-income tiers for large loans, and the
disposable-income penalty) lowers the running score as `max (score - p) 0`
independently, so starting from a nonnegative score the running score is
nonnegative after every individual step, and hence after the whole
affordability adjustment. -/
theorem penalty_steps_floor_at_zero (f : Features) (loan : ℚ) (s : Int)
    (r p2i m : ℚ) (di : Option ℚ) (h : 0 ≤ s) :
    0 ≤ affordStep1 s r ∧
    0 ≤ paymentStep (affordStep1 s r) p2i ∧
    0 ≤ disposableStep (paymentStep (affordStep1 s r) p2i) di m ∧
    0 ≤ affordabilityAdjust f loan s :=
  ⟨affordStep1_nonneg s r h,
   paymentStep_nonneg _ p2i (affordStep1_nonneg s r h),
   disposableStep_nonneg _ di m
     (paymentStep_nonneg _ p2i (affordStep1_nonneg s r h)),
   affordabilityAdjust_nonneg f loan s h⟩

/-- Witness for C7 at a concrete nonnegative score and concrete ratios that
trigger each penalty tier. -/
theorem penalty_steps_floor_at_zero_witness :
    0 ≤ affordStep1 25 9 ∧
    0 ≤ paymentStep (affordStep1 25 9) 1 ∧
    0 ≤ disposableStep (paymentStep (affordStep1 25 9) 1) (some 0) 1000 ∧
    0 ≤ affordabilityAdjust featuresB 100000 25 :=
  penalty_steps_floor_at_zero featuresB 100000 25 9 1 1000 (some 0)
    (by norm_num)

/-- **C8.** The Pillar-1 income-ratio contribution is monotone
non-decreasing in the net-to-gross ratio: with the same positive gross
salary, a net salary giving a larger (or equal) ratio receives at least as
large a contribution. -/
theorem netToGross_contribution_monotone (n1 n2 g : ℚ) (hg : 0 < g)
    (hr : n1 / g ≤ n2 / g) :
    netToGrossPoints (some n1) (some g) ≤
      netToGrossPoints (some n2) (some g) := by
  simp only [netToGrossPoints]
  rw [if_pos hg, if_pos hg]
  split_ifs <;> first | (exfalso; linarith) | norm_num

/-- Witness for C8 across the 0.84 to 0.85 boundary: with gross 100, net 84
gives 15 points and net 85 gives 20. -/
theorem netToGross_contribution_monotone_witness :
    netToGrossPoints (some 84) (some 100) ≤
      netToGrossPoints (some 85) (some 100) :=
  netToGross_contribution_monotone 84 85 100 (by norm_num) (by norm_num)

/-- Counterexample to C9 as stated: on `featuresC` (both salaries 1000,
everything else absent, requested loan 100000) the engine returns 0 both
with the net-to-gross rule and with it removed, because the income-multiple
penalty (ratio 100000/12000 > 8) and the payment-to-income penalty floor the
score at 0 either way; so the returned score is not at least 5 more than the
no-rule score. -/
theorem netToGross_gain_refuted :
    ¬ ∀ (f : Features) (loan : ℚ) (s t : Int),
        (∃ n, f.net_salary = some n) →
        (∃ g, f.gross_salary = some g ∧ 0 < g) →
        calculate_credit_score f loan = Except.ok s →
        calculate_credit_score_noNetGross f loan = Except.ok t →
        t + 5 ≤ s := by
  intro hall
  have h1 : calculate_credit_score featuresC 100000 = Except.ok 0 := by
    simp [calculate_credit_score, additiveScore, netToGrossPoints,
      compositionPoints, stabilityPoints, debtBurdenPoints, garnishmentPoints,
      disposablePoints, pensionPoints, tenurePoints, affordabilityAdjust,
      affordStep1, paymentStep, disposableStep, garnishCap, ltnCap,
      featuresC, emptyIndicators, max_def, min_def]
    norm_num
  have h2 : calculate_credit_score_noNetGross featuresC 100000 =
      Except.ok 0 := by
    simp [calculate_credit_score_noNetGross, additiveScoreNoNetGross,
      compositionPoints, stabilityPoints, debtBurdenPoints, garnishmentPoints,
      disposablePoints, pensionPoints, tenurePoints, affordabilityAdjust,
      affordStep1, paymentStep, disposableStep, garnishCap, ltnCap,
      featuresC, emptyIndicators, max_def, min_def]
    norm_num
  have := hall featuresC 100000 0 0 ⟨1000, rfl⟩ ⟨1000, rfl, by norm_num⟩ h1 h2
  omega

/-- **C9 (amended).** When `net_salary` and `gross_salary` are present and
`gross_salary > 0`, the Pillar-1 net-to-gross rule contributes one of
5, 10, 15, 20 points — never 0 — and the additive pillar total (before the
affordability penalties and red-flag caps) is exactly that contribution
more than with the rule removed. The final returned score, however, need
not be 5 more (see the counterexample). -/
theorem netToGross_contribution_at_least_five (f : Features) (n g : ℚ)
    (hn : f.net_salary = some n) (hg : f.gross_salary = some g)
    (hgpos : 0 < g) :
    (netToGrossPoints f.net_salary f.gross_salary = 5 ∨
     netToGrossPoints f.net_salary f.gross_salary = 10 ∨
     netToGrossPoints f.net_salary f.gross_salary = 15 ∨
     netToGrossPoints f.net_salary f.gross_salary = 20) ∧
    5 ≤ netToGrossPoints f.net_salary f.gross_salary ∧
    additiveScore f =
      additiveScoreNoNetGross f +
        netToGrossPoints f.net_salary f.gross_salary := by
  refine ⟨?_, ?_, ?_⟩
  · rw [hn, hg]
    simp only [netToGrossPoints]
    rw [if_pos hgpos]
    split_ifs <;> norm_num
  · rw [hn, hg]
    simp only [netToGrossPoints]
    rw [if_pos hgpos]
    split_ifs <;> norm_num
  · unfold additiveScore additiveScoreNoNetGross
    ring

/-- Witness for C9 (amended) on Scenario B's features: the rule contributes
15 there. -/
theorem netToGross_contribution_at_least_five_witness :
    5 ≤ netToGrossPoints featuresB.net_salary featuresB.gross_salary :=
  (netToGross_contribution_at_least_five featuresB 2000 2500 rfl rfl
    (by norm_num)).2.1

/-- **C10.** The engine is total on inputs whose salaries are present but
zero or negative: it returns a score and raises nothing. When
`gross_salary ≤ 0` both Pillar-1 ratio rules award 0; when `net_salary ≤ 0`
the Pillar-3 disposable-income and pension rules award 0 and the whole loan
affordability adjustment leaves the score unchanged. -/
theorem zero_salary_inputs_total (f : Features) (loan : ℚ) (n g : ℚ)
    (hn : f.net_salary = some n) (hg : f.gross_salary = some g) :
    (∃ s, calculate_credit_score f loan = Except.ok s) ∧
    (g ≤ 0 →
      netToGrossPoints f.net_salary f.gross_salary = 0 ∧
      compositionPoints f.basic_salary f.gross_salary = 0) ∧
    (n ≤ 0 →
      disposablePoints f.indicators.disposable_income f.net_salary = 0 ∧
      pensionPoints f.pension f.net_salary = 0 ∧
      ∀ s, affordabilityAdjust f loan s = s) := by
  have hok : calculate_credit_score f loan =
      Except.ok (min (ltnCap f.indicators.loan_to_net
        (garnishCap f.garnishments
          (affordabilityAdjust f loan (additiveScore f)))) 100) := by
    unfold calculate_credit_score
    rw [if_neg (by simp [hn, hg])]
  refine ⟨⟨_, hok⟩, fun hgle => ⟨?_, ?_⟩, fun hnle => ⟨?_, ?_, ?_⟩⟩
  · rw [hn, hg]
    simp only [netToGrossPoints]
    rw [if_neg (not_lt.mpr hgle)]
  · rw [hg]
    rcases hb : f.basic_salary with _ | b
    · rfl
    · simp only [compositionPoints]
      rw [if_neg (not_lt.mpr hgle)]
  · rw [hn]
    rcases hd : f.indicators.disposable_income with _ | d
    · rfl
    · simp only [disposablePoints]
      rw [if_neg (not_lt.mpr hnle)]
  · rw [hn]
    rcases hp : f.pension with _ | p
    · rfl
    · simp only [pensionPoints]
      rw [if_neg (by intro hc; exact absurd hnle (not_le.mpr hc.2))]
  · intro s
    unfold affordabilityAdjust
    rw [hn]
    simp only
    rw [if_neg (not_lt.mpr hnle)]

/-- Witness for C10 on the zero-salary input `featuresZ`: it yields a score,
both Pillar-1 rules award 0, and the affordability adjustment is the
identity. -/
theorem zero_salary_inputs_total_witness :
    (∃ s, calculate_credit_score featuresZ 100000 = Except.ok s) ∧
    netToGrossPoints featuresZ.net_salary featuresZ.gross_salary = 0 ∧
    (∀ s, affordabilityAdjust featuresZ 100000 s = s) := by
  have h := zero_salary_inputs_total featuresZ 100000 0 0 rfl rfl
  exact ⟨h.1, (h.2.1 (by norm_num)).1, (h.2.2 (by norm_num)).2.2⟩
